import Mathlib

/-!
Shallow embedding of the Chat-With-Pdf-Langchain orchestration code
(`src/index.ts` and `src/getOrCreateIndex.ts`).

The program is straight-line orchestration over external services.  Remote
calls are embedded as explicit functions of their inputs:

* the Pinecone index state is a map from namespace name to record count;
* `describeIndexStats` yields that map;
* `PineconeStore.fromDocuments` upserts one vector per split chunk into the
  literal namespace `"pdf-namespace"`;
* the similarity search ranks the stored documents by a score and takes the
  first K;
* the generative model is a function from prompt text to answer text.
-/

namespace ChatWithPdf

/-! ## Data model: namespaces and index statistics -/

/-- Per-namespace record counts of a Pinecone index, as reported by
`describeIndexStats().namespaces`: `none` means the namespace is absent from
the statistics, `some c` that it is present with `c` records. -/
abbrev NsMap := String → Option Nat

/-- The record count of a namespace (`0` when the namespace is absent). -/
def nsCount (m : NsMap) (ns : String) : Nat := (m ns).getD 0

/-- Upserting `k` fresh vectors into namespace `ns` (as
`PineconeStore.fromDocuments` does: every vector gets a fresh id, so the
record count of `ns` grows by `k`; other namespaces are untouched). -/
def nsUpsert (m : NsMap) (ns : String) (k : Nat) : NsMap :=
  fun x => if x = ns then some (nsCount m ns + k) else m x

/-- An index with no vectors at all. -/
def emptyStats : NsMap := fun _ => none

/-! ## Idempotency guard (`src/index.ts` lines 51-59) -/

/-- The guard condition of `initializeVectorStore`:
`stats.namespaces && stats.namespaces[PDF_NAMESPACE] &&
stats.namespaces[PDF_NAMESPACE].recordCount > 0`.
The outer `Option` models `stats.namespaces` being absent. -/
def skipIngestion (namespaces : Option NsMap) (ns : String) : Bool :=
  match namespaces with
  | none => false
  | some m =>
    match m ns with
    | none => false
    | some c => decide (0 < c)

/-! ## Ingestion entry point (`src/index.ts` lines 40-77)

`initializeVectorStoreRun` is the state transition `initializeVectorStore`
performs on the index: it reads the statistics, returns early when the guard
fires on the configured namespace `pdfNamespace` (`PDF_NAMESPACE`), and
otherwise upserts the `numChunks` split chunks into the literal namespace
`"pdf-namespace"` (line 73 of `src/index.ts`). -/

def initializeVectorStoreRun (pdfNamespace : String) (numChunks : Nat)
    (state : NsMap) : NsMap :=
  if skipIngestion (some state) pdfNamespace then state
  else nsUpsert state "pdf-namespace" numChunks

/-- The remote calls `initializeVectorStore` issues, in program order. -/
inductive IngestAction where
  | getIndexOrCreateCall
  | describeStatsCall
  | loadPdfCall
  | splitCall
  | upsertCall (ns : String) (vectors : List (List Int))
deriving DecidableEq

/-- The sequence of remote calls a run of `initializeVectorStore` issues:
provision the index, fetch statistics, and either stop (guard fired) or
load, split, embed and upsert the chunks.  `emb` is the embedding model
(chunk text to vector); the code inspects no vector length anywhere. -/
def initializeVectorStoreActions (pdfNamespace : String) (chunks : List String)
    (emb : String → List Int) (state : NsMap) : List IngestAction :=
  if skipIngestion (some state) pdfNamespace then
    [.getIndexOrCreateCall, .describeStatsCall]
  else
    [.getIndexOrCreateCall, .describeStatsCall, .loadPdfCall, .splitCall,
      .upsertCall "pdf-namespace" (chunks.map emb)]

/-- Modelled from the spec: the vector-database service is an external
black box not in `src/`; per the spec's data-model invariant, the index has
a declared dimension and the provider rejects an upsert whose vectors do not
match it, writing no records on rejection. -/
def pineconeUpsert (dimension : Nat) (state : NsMap) (ns : String)
    (vectors : List (List Int)) : Except String NsMap :=
  if ∀ v ∈ vectors, v.length = dimension then
    .ok (nsUpsert state ns vectors.length)
  else
    .error "Vector dimension does not match the dimension of the index"

/-- `initializeVectorStore` with the provider-side dimension check of
`pineconeUpsert` made explicit (index dimension 768, line 45 of
`src/index.ts`). -/
def initializeVectorStoreProvider (pdfNamespace : String) (chunks : List String)
    (emb : String → List Int) (state : NsMap) : Except String NsMap :=
  if skipIngestion (some state) pdfNamespace then .ok state
  else pineconeUpsert 768 state "pdf-namespace" (chunks.map emb)

/-! ## Index provisioner (`src/getOrCreateIndex.ts`) -/

/-- One entry of `listIndexes().indexes`.  The code only ever reads `name`;
the configuration fields are carried to express that they are not
inspected. -/
structure IndexEntry where
  name : String
  dimension : Nat
  metric : String
  cloud : String
  region : String
deriving DecidableEq

/-- What `getIndexOrCreate` does with the provider: issue a `createIndex`
call with the requested parameters, or reuse the existing index by name. -/
inductive ProvisionOutcome where
  | created (req : IndexEntry)
  | reused (name : String)
deriving DecidableEq

/-- `getIndexOrCreate` (`src/getOrCreateIndex.ts` lines 18-59):
`indexes` models `listIndexes()` (`none` when `result` or `result.indexes`
is missing); if the requested name appears in the list the existing index is
reused, otherwise `createIndex` is called with the requested parameters. -/
def getIndexOrCreate (indexes : Option (List IndexEntry)) (indexName : String)
    (dimension : Nat) (metric cloud region : String) : ProvisionOutcome :=
  match indexes with
  | none => .created ⟨indexName, dimension, metric, cloud, region⟩
  | some l =>
    if l.any (fun idx => idx.name = indexName) then .reused indexName
    else .created ⟨indexName, dimension, metric, cloud, region⟩

/-- Whether a provisioning outcome issued a `createIndex` call. -/
def createsIndex : ProvisionOutcome → Bool
  | .created _ => true
  | .reused _ => false

/-! ## Text splitting -/

/-- The chunk that starts `i` strides into the text, one stride being
`chunkSize - chunkOverlap` characters. -/
def chunkAt (chunkSize chunkOverlap : Nat) (text : List Char) (i : Nat) :
    List Char :=
  (text.drop (i * (chunkSize - chunkOverlap))).take chunkSize

/-- How many windows the sliding window emits over a text of length `len`:
none for the empty text, and otherwise one window per stride of
`chunkSize - chunkOverlap` characters until a window reaches the end of the
text — the first chunk whose window covers the last character is the final
chunk, and no further window is started behind it. -/
def numChunks (chunkSize chunkOverlap len : Nat) : Nat :=
  if len = 0 then 0
  else
    1 + (len - chunkSize + (chunkSize - chunkOverlap) - 1) /
      (chunkSize - chunkOverlap)

/-- Modelled from the spec: the text splitter
(`RecursiveCharacterTextSplitter`, an external langchain dependency not in
`src/`) is described by the spec as a sliding window of `chunkSize` with
`chunkOverlap` shared between consecutive chunks — each chunk after the
first begins `chunkSize - chunkOverlap` characters after the previous
chunk's start, and the window stops with the first chunk that reaches the
end of the text, so only the final chunk can be cut short by the text
boundary. -/
def splitText (chunkSize chunkOverlap : Nat) (text : List Char) :
    List (List Char) :=
  (List.range (numChunks chunkSize chunkOverlap text.length)).map
    (chunkAt chunkSize chunkOverlap text)

/-- The last `n` characters of a chunk (the whole chunk when it is shorter
than `n`). -/
def lastChars (n : Nat) (l : List Char) : List Char := l.drop (l.length - n)

/-! ## Query pipeline (`src/index.ts` lines 79-111) -/

/-- `[...].join(sep)` of JavaScript. -/
def joinSep (sep : String) : List String → String
  | [] => ""
  | [a] => a
  | a :: rest => a ++ sep ++ joinSep sep rest

/-- The fixed text of the prompt template before the context block. -/
def promptHeader : String := "\n     Context from the PDF:\n     "

/-- The fixed text of the prompt template between context and question. -/
def promptMid : String := "\n \n     User Question: "

/-- The fixed instruction of the prompt template after the question. -/
def promptTail : String :=
  "\n \n     Please provide a detailed answer based on the context above. If the information is not found in the context, please indicate that."

/-- The template literal of `src/index.ts` lines 96-102. -/
def buildPrompt (context userQuery : String) : String :=
  promptHeader ++ context ++ promptMid ++ userQuery ++ promptTail

/-- Insert into a list sorted by descending score (stable). -/
def insertDesc {α : Type} (score : α → Int) (a : α) : List α → List α
  | [] => [a]
  | b :: l => if score b < score a then a :: b :: l else b :: insertDesc score a l

/-- Sort by descending score (stable insertion sort). -/
def sortDesc {α : Type} (score : α → Int) : List α → List α
  | [] => []
  | a :: l => insertDesc score a (sortDesc score l)

/-- `vectorStore.similaritySearch(userQuery, k)`: embed the query with
`emb`, rank the stored documents (text paired with stored vector) by the
similarity score `sim` of the configured metric, and return the texts of the
top `k`. -/
def similaritySearch (emb : String → List Int)
    (sim : List Int → List Int → Int)
    (store : List (String × List Int)) (userQuery : String) (k : Nat) :
    List String :=
  ((sortDesc (fun d => sim (emb userQuery) d.2) store).take k).map Prod.fst

/-- The failures the query pipeline can encounter.  `queryError` is the
wrapper kind the spec names; it is expressible here so that theorems can ask
whether the code ever produces it. -/
inductive PipelineError where
  | embeddingFailure (msg : String)
  | retrievalFailure (msg : String)
  | generationFailure (msg : String)
  | queryError (cause : PipelineError)
deriving DecidableEq

/-- The body of the `try` block of `queryPDF`: similarity search, context
block by joining the chunk texts with a blank line, prompt construction,
generation. -/
def queryBody (search : String → Except PipelineError (List String))
    (gen : String → Except PipelineError String) (userQuery : String) :
    Except PipelineError String := do
  let relevantDocs ← search userQuery
  let context := joinSep "\n\n" relevantDocs
  let prompt := buildPrompt context userQuery
  gen prompt

/-- `queryPDF` (`src/index.ts` lines 79-111): run the body; on failure the
`catch` block logs the error once (`console.error`) and rethrows it.  The
second component is the list of errors logged. -/
def queryPDF (search : String → Except PipelineError (List String))
    (gen : String → Except PipelineError String) (userQuery : String) :
    Except PipelineError String × List PipelineError :=
  match queryBody search gen userQuery with
  | .ok a => (.ok a, [])
  | .error e => (.error e, [e])

/-! ## Helper lemmas -/

theorem nsCount_upsert_self (m : NsMap) (ns : String) (k : Nat) :
    nsCount (nsUpsert m ns k) ns = nsCount m ns + k := by
  simp [nsCount, nsUpsert]

theorem nsCount_upsert_other (m : NsMap) (ns x : String) (k : Nat)
    (h : x ≠ ns) : nsCount (nsUpsert m ns k) x = nsCount m x := by
  simp [nsCount, nsUpsert, h]

theorem skipIngestion_eq_false_iff (m : NsMap) (ns : String) :
    skipIngestion (some m) ns = false ↔ nsCount m ns = 0 := by
  cases h : m ns with
  | none => simp [skipIngestion, nsCount, h]
  | some c => simp [skipIngestion, nsCount, h]

theorem run_of_guard_false (ns : String) (k : Nat) (s : NsMap)
    (h : skipIngestion (some s) ns = false) :
    initializeVectorStoreRun ns k s = nsUpsert s "pdf-namespace" k := by
  unfold initializeVectorStoreRun
  simp [h]

theorem count_run_self (k : Nat) (s : NsMap) :
    nsCount (initializeVectorStoreRun "pdf-namespace" k s) "pdf-namespace"
      = if nsCount s "pdf-namespace" = 0 then k
        else nsCount s "pdf-namespace" := by
  unfold initializeVectorStoreRun
  cases hb : skipIngestion (some s) "pdf-namespace" with
  | false =>
    have h0 := (skipIngestion_eq_false_iff s _).mp hb
    simp [hb, h0, nsCount_upsert_self]
  | true =>
    have h0 : nsCount s "pdf-namespace" ≠ 0 := by
      intro hz
      rw [(skipIngestion_eq_false_iff s _).mpr hz] at hb
      exact Bool.noConfusion hb
    simp [hb, h0]

theorem run_iterate_mismatch (ns : String) (k : Nat) (s : NsMap)
    (hns : ns ≠ "pdf-namespace") (h0 : nsCount s ns = 0) (n : Nat) :
    nsCount ((initializeVectorStoreRun ns k)^[n] s) ns = 0 ∧
    nsCount ((initializeVectorStoreRun ns k)^[n] s) "pdf-namespace"
      = nsCount s "pdf-namespace" + n * k := by
  induction n with
  | zero => simpa using h0
  | succ n ih =>
    obtain ⟨ih1, ih2⟩ := ih
    have hskip :
        skipIngestion (some ((initializeVectorStoreRun ns k)^[n] s)) ns
          = false :=
      (skipIngestion_eq_false_iff _ _).mpr ih1
    rw [Function.iterate_succ_apply', run_of_guard_false _ _ _ hskip]
    constructor
    · rw [nsCount_upsert_other _ _ _ _ hns]
      exact ih1
    · rw [nsCount_upsert_self, ih2]
      ring

theorem splitText_length (s o : Nat) (t : List Char) :
    (splitText s o t).length = numChunks s o t.length := by
  simp [splitText]

theorem chunk_inside (s o L i : Nat) (h : o < s)
    (hi : i + 1 < numChunks s o L) : i * (s - o) + s < L := by
  unfold numChunks at hi
  by_cases hL : L = 0
  · simp [hL] at hi
  · rw [if_neg hL] at hi
    have h1 : (i + 1) * (s - o)
        ≤ ((L - s + (s - o) - 1) / (s - o)) * (s - o) :=
      Nat.mul_le_mul_right _ (by omega)
    have h2 : ((L - s + (s - o) - 1) / (s - o)) * (s - o)
        ≤ L - s + (s - o) - 1 :=
      Nat.div_mul_le_self _ _
    have h3 : (i + 1) * (s - o) = i * (s - o) + (s - o) := by ring
    omega

theorem chunk_full_length (s o : Nat) (t : List Char) (i : Nat) (h : o < s)
    (hi : i + 1 < numChunks s o t.length) :
    (chunkAt s o t i).length = s := by
  have hin := chunk_inside s o t.length i h hi
  simp [chunkAt]
  omega

/-! ## Claims -/

/-- Claim C1 (counterexample): with `PDF_NAMESPACE = "doc-ns"`, starting from
an empty index, the first run of `initializeVectorStore` on a 3-chunk
document puts 3 records into the namespace `"pdf-namespace"` that ingestion
targets; although that namespace then holds at least one record, the second
run adds 3 more (the guard watches `"doc-ns"`, which stays empty), so the
count after run 2 is 6, not 3. -/
theorem claim1_counterexample :
    nsCount (initializeVectorStoreRun "doc-ns" 3 emptyStats)
        "pdf-namespace" = 3 ∧
    nsCount (initializeVectorStoreRun "doc-ns" 3
        (initializeVectorStoreRun "doc-ns" 3 emptyStats))
        "pdf-namespace" = 6 := by
  exact ⟨by decide, by decide⟩

/-- Claim C1 (amended): when the configured `PDF_NAMESPACE` is the literal
upsert namespace `"pdf-namespace"`, a second run of `initializeVectorStore`
leaves the record count of that namespace exactly where the first run left
it — in particular, when the namespace already holds at least one record the
second run adds no vectors. -/
theorem claim1_second_run_adds_nothing (numChunks : Nat) (state : NsMap) :
    nsCount (initializeVectorStoreRun "pdf-namespace" numChunks
        (initializeVectorStoreRun "pdf-namespace" numChunks state))
        "pdf-namespace"
      = nsCount (initializeVectorStoreRun "pdf-namespace" numChunks state)
        "pdf-namespace" := by
  rw [count_run_self, count_run_self]
  split_ifs <;> omega

/-- Claim C2: the idempotency guard signals skip exactly when the statistics
hold an entry for the target namespace with a strictly positive record
count; a namespace present with zero records yields proceed, and when the
guard proceeds `initializeVectorStore` runs ingestion (upserting into the
literal namespace `"pdf-namespace"`). -/
theorem claim2_guard_iff (namespaces : Option NsMap) (ns : String) :
    (skipIngestion namespaces ns = true ↔
      ∃ m c, namespaces = some m ∧ m ns = some c ∧ 0 < c) ∧
    (∀ m, namespaces = some m → m ns = some 0 →
      skipIngestion namespaces ns = false) ∧
    (∀ m numChunks, namespaces = some m →
      skipIngestion namespaces ns = false →
      initializeVectorStoreRun ns numChunks m
        = nsUpsert m "pdf-namespace" numChunks) := by
  refine ⟨?_, ?_, ?_⟩
  · cases namespaces with
    | none => simp [skipIngestion]
    | some m =>
      cases h : m ns with
      | none => simp [skipIngestion, h]
      | some c => simp [skipIngestion, h]
  · intro m hm h0
    subst hm
    rw [skipIngestion_eq_false_iff]
    simp [nsCount, h0]
  · intro m numChunks hm hskip
    subst hm
    unfold initializeVectorStoreRun
    rw [hskip]
    simp

/-- Claim C3: the guard of `initializeVectorStore` inspects the configured
namespace `ns = PDF_NAMESPACE` while the upsert targets the literal
`"pdf-namespace"`.  When they differ and `ns` starts with zero records,
every iterate of the run proceeds (the guard never fires) and upserts the
chunks again, growing `"pdf-namespace"` by `k` records per invocation;
when `PDF_NAMESPACE = "pdf-namespace"`, a second run adds nothing. -/
theorem claim3_namespace_mismatch (ns : String) (k : Nat) (s : NsMap) :
    (ns ≠ "pdf-namespace" → nsCount s ns = 0 →
      ∀ n : Nat,
        skipIngestion (some ((initializeVectorStoreRun ns k)^[n] s)) ns
            = false ∧
        nsCount ((initializeVectorStoreRun ns k)^[n] s) "pdf-namespace"
            = nsCount s "pdf-namespace" + n * k) ∧
    (ns = "pdf-namespace" →
      nsCount (initializeVectorStoreRun ns k
          (initializeVectorStoreRun ns k s)) "pdf-namespace"
        = nsCount (initializeVectorStoreRun ns k s) "pdf-namespace") := by
  constructor
  · intro hns h0 n
    obtain ⟨h1, h2⟩ := run_iterate_mismatch ns k s hns h0 n
    exact ⟨(skipIngestion_eq_false_iff _ _).mpr h1, h2⟩
  · intro hns
    subst hns
    rw [count_run_self, count_run_self]
    split_ifs <;> omega

/-- Claim C3 (witness): with `PDF_NAMESPACE = "doc-ns"` and an empty index,
after two invocations the guard still signals proceed and the literal
namespace `"pdf-namespace"` holds `2 * 3` records. -/
theorem claim3_namespace_mismatch_witness :
    skipIngestion
        (some ((initializeVectorStoreRun "doc-ns" 3)^[2] emptyStats))
        "doc-ns" = false ∧
    nsCount ((initializeVectorStoreRun "doc-ns" 3)^[2] emptyStats)
        "pdf-namespace"
      = nsCount emptyStats "pdf-namespace" + 2 * 3 :=
  (claim3_namespace_mismatch "doc-ns" 3 emptyStats).1 (by decide) rfl 2

/-- Claim C2 (witness): a namespace present in the statistics with exactly
zero records makes the guard signal proceed. -/
theorem claim2_guard_iff_witness :
    skipIngestion
        (some (fun x => if x = "doc-ns" then some 0 else none)) "doc-ns"
      = false :=
  (claim2_guard_iff
      (some (fun x => if x = "doc-ns" then some 0 else none)) "doc-ns").2.1
    _ rfl (by simp)

/-- Claim C4: `getIndexOrCreate` issues a `createIndex` call exactly when
the requested name is absent from the listed indexes (or the list itself is
absent); when the name is present it returns the existing index by name,
with no creation call and no inspection of the existing configuration
against the requested dimension, metric, cloud or region. -/
theorem claim4_create_iff_absent (indexes : Option (List IndexEntry))
    (indexName : String) (dimension : Nat) (metric cloud region : String) :
    (createsIndex
        (getIndexOrCreate indexes indexName dimension metric cloud region)
          = true ↔
      ∀ l, indexes = some l → ∀ e ∈ l, e.name ≠ indexName) ∧
    (∀ l, indexes = some l → (∃ e ∈ l, e.name = indexName) →
      getIndexOrCreate indexes indexName dimension metric cloud region
        = .reused indexName) := by
  constructor
  · cases indexes with
    | none => simp [getIndexOrCreate, createsIndex]
    | some l =>
      simp only [getIndexOrCreate]
      by_cases hany : ∃ e ∈ l, e.name = indexName
      · obtain ⟨e, he, hn⟩ := hany
        rw [if_pos (by rw [List.any_eq_true]; exact ⟨e, he, by simp [hn]⟩)]
        simp only [createsIndex, Bool.false_eq_true, false_iff]
        intro hall
        exact hall l rfl e he hn
      · rw [if_neg (by rw [List.any_eq_true]; simpa using hany)]
        simp only [createsIndex, true_iff]
        intro l2 hl2 e he
        cases hl2
        intro hn
        exact hany ⟨e, he, hn⟩
  · intro l hl he
    subst hl
    obtain ⟨e, he, hn⟩ := he
    simp only [getIndexOrCreate]
    rw [if_pos (by rw [List.any_eq_true]; exact ⟨e, he, by simp [hn]⟩)]

/-- Claim C4 (witness): a second provisioning call for an existing
`"demo-index"` reuses it without a creation call. -/
theorem claim4_create_iff_absent_witness :
    getIndexOrCreate
        (some [⟨"demo-index", 768, "cosine", "aws", "us-east-1"⟩])
        "demo-index" 768 "cosine" "aws" "us-east-1"
      = .reused "demo-index" :=
  (claim4_create_iff_absent
      (some [⟨"demo-index", 768, "cosine", "aws", "us-east-1"⟩])
      "demo-index" 768 "cosine" "aws" "us-east-1").2
    _ rfl ⟨⟨"demo-index", 768, "cosine", "aws", "us-east-1"⟩, by simp, rfl⟩

/-- Claim C5: against an empty namespace the similarity search returns no
chunks, the context block is the empty string, and `queryPDF` still invokes
the generative model (for every model `gen`, the returned answer is the
model's output on the prompt built from the empty context), with nothing
logged. -/
theorem claim5_empty_namespace (emb : String → List Int)
    (sim : List Int → List Int → Int) (k : Nat) (q : String)
    (gen : String → String) :
    similaritySearch emb sim [] q k = [] ∧
    queryPDF (fun q2 => .ok (similaritySearch emb sim [] q2 k))
        (fun p => .ok (gen p)) q
      = (.ok (gen (buildPrompt "" q)), []) := by
  constructor
  · simp [similaritySearch, sortDesc]
  · unfold queryPDF queryBody
    simp only [similaritySearch, sortDesc, List.take_nil, List.map_nil]
    rfl

/-- Claim C6 (counterexample): with an embedding model whose output length
is 0 ≠ 768, a run of `initializeVectorStore` on an empty index issues its
full sequence of remote calls and reaches the upsert attempt with the
mismatched vectors — no error is raised before the upsert is attempted,
because the code never inspects a vector length. -/
theorem claim6_counterexample :
    initializeVectorStoreActions "pdf-namespace" ["a", "b", "c"]
        (fun _ => []) emptyStats
      = [.getIndexOrCreateCall, .describeStatsCall, .loadPdfCall, .splitCall,
          .upsertCall "pdf-namespace" [[], [], []]] ∧
    ([] : List Int).length ≠ 768 := by
  exact ⟨rfl, by decide⟩

/-- Claim C6 (amended): the dimension mismatch surfaces as the provider's
rejection of the upsert call itself — when the guard proceeds, the document
is non-empty and every embedding has length other than 768, the run fails
with the provider's dimension error and (per the provider model) no records
are written. -/
theorem claim6_provider_rejects_mismatch (pdfNamespace : String)
    (chunks : List String) (emb : String → List Int) (state : NsMap)
    (hguard : skipIngestion (some state) pdfNamespace = false)
    (hne : chunks ≠ [])
    (hdim : ∀ c, (emb c).length ≠ 768) :
    initializeVectorStoreProvider pdfNamespace chunks emb state
      = .error "Vector dimension does not match the dimension of the index"
    := by
  unfold initializeVectorStoreProvider
  rw [hguard]
  simp only [Bool.false_eq_true, if_false]
  unfold pineconeUpsert
  rw [if_neg]
  intro hall
  cases chunks with
  | nil => exact hne rfl
  | cons c cs => exact hdim c (hall (emb c) (by simp))

/-- Claim C6 (witness): a 1-chunk document embedded into length-0 vectors
makes the run fail with the provider's dimension error. -/
theorem claim6_provider_rejects_mismatch_witness :
    initializeVectorStoreProvider "pdf-namespace" ["a"] (fun _ => [])
        emptyStats
      = .error "Vector dimension does not match the dimension of the index"
    := by
  exact claim6_provider_rejects_mismatch "pdf-namespace" ["a"] (fun _ => [])
    emptyStats rfl (by decide)
    (by intro c; exact (by decide : ([] : List Int).length ≠ 768))
/-- Claim C7 (counterexample): when the similarity search fails, `queryPDF`
rethrows the original failure itself — the propagated error is the
underlying cause, not a `QueryError` wrapping it. -/
theorem claim7_counterexample :
    (queryPDF (fun _ => .error (.retrievalFailure "boom"))
        (fun p => .ok p) "q").1
      = .error (.retrievalFailure "boom") ∧
    ¬ ∃ cause,
      (queryPDF (fun _ => .error (.retrievalFailure "boom"))
          (fun p => .ok p) "q").1
        = .error (.queryError cause) := by
  refine ⟨rfl, ?_⟩
  rintro ⟨cause, h⟩
  rw [show (queryPDF (fun _ => .error (.retrievalFailure "boom"))
        (fun p => .ok p) "q").1
      = Except.error (.retrievalFailure "boom") from rfl] at h
  exact PipelineError.noConfusion (Except.error.inj h)

/-- Claim C7 (amended): every failure of the query pipeline's body is caught
exactly once for logging and re-thrown to the caller unchanged — `queryPDF`
returns the original error and logs it exactly once. -/
theorem claim7_rethrows_unchanged
    (search : String → Except PipelineError (List String))
    (gen : String → Except PipelineError String) (userQuery : String)
    (e : PipelineError) (h : queryBody search gen userQuery = .error e) :
    queryPDF search gen userQuery = (.error e, [e]) := by
  unfold queryPDF
  rw [h]

/-- Claim C7 (witness): a retrieval failure is returned unchanged and logged
once. -/
theorem claim7_rethrows_unchanged_witness :
    queryPDF (fun _ => .error (.retrievalFailure "down"))
        (fun p => .ok p) "q"
      = (.error (.retrievalFailure "down"), [.retrievalFailure "down"]) :=
  claim7_rethrows_unchanged (fun _ => .error (.retrievalFailure "down"))
    (fun p => .ok p) "q" (.retrievalFailure "down") rfl

/-- Claim C8: for a non-empty retrieved list, `queryPDF` joins the chunk
texts with a blank-line separator in the order the search returned them,
builds the prompt from the fixed template parts around the context block and
the question, and returns the generative model's output on that prompt. -/
theorem claim8_prompt_structure (emb : String → List Int)
    (sim : List Int → List Int → Int) (store : List (String × List Int))
    (q : String) (k : Nat) (gen : String → String) (docs : List String)
    (hdocs : similaritySearch emb sim store q k = docs) (_hne : docs ≠ []) :
    queryPDF (fun q2 => .ok (similaritySearch emb sim store q2 k))
        (fun p => .ok (gen p)) q
      = (.ok (gen (promptHeader ++ joinSep "\n\n" docs ++ promptMid ++ q
          ++ promptTail)), []) := by
  unfold queryPDF queryBody
  simp only [hdocs, buildPrompt]
  rfl

/-- Claim C8 (witness): with one stored chunk retrieved, the answer is the
model's output on the assembled prompt. -/
theorem claim8_prompt_structure_witness :
    queryPDF
        (fun q2 => .ok (similaritySearch (fun _ => []) (fun _ _ => 0)
          [("chunkA", [])] q2 1))
        (fun p => .ok p) "q"
      = (.ok (promptHeader ++ joinSep "\n\n" ["chunkA"] ++ promptMid ++ "q"
          ++ promptTail), []) :=
  claim8_prompt_structure (fun _ => []) (fun _ _ => 0) [("chunkA", [])]
    "q" 1 (fun p => p) ["chunkA"] rfl (by decide)

/-- Claim C9: for overlaps `0 ≤ o < s`, the spec-modelled sliding window
produces chunks each of length at most `s`; the chunk at position `i` of
the result starts exactly `i * (s - o)` characters into the text (so each
chunk after the first begins `s - o` characters after the previous chunk's
start, preserving source order); and for every two consecutive chunks the
last `o` characters of chunk `i` equal the first `o` characters of chunk
`i + 1` — the equality is exact for every pair, because only the final
chunk can be truncated by the text boundary. -/
theorem claim9_sliding_window (s o : Nat) (t : List Char) (h : o < s) :
    (∀ c ∈ splitText s o t, c.length ≤ s) ∧
    (∀ i, ∀ hi : i < (splitText s o t).length,
      (splitText s o t).get ⟨i, hi⟩ = (t.drop (i * (s - o))).take s) ∧
    (∀ i, i + 1 < (splitText s o t).length →
      lastChars o (chunkAt s o t i) = (chunkAt s o t (i + 1)).take o) := by
  refine ⟨?_, ?_, ?_⟩
  · intro c hc
    simp only [splitText, List.mem_map] at hc
    obtain ⟨i, _, rfl⟩ := hc
    exact List.length_take_le _ _
  · intro i hi
    simp [splitText, chunkAt]
  · intro i hi
    rw [splitText_length] at hi
    have hlen := chunk_full_length s o t i h hi
    unfold lastChars
    rw [hlen]
    unfold chunkAt
    rw [List.drop_take, List.drop_drop, List.take_take]
    have h1 : s - (s - o) = o := by omega
    have h2 : min o s = o := by omega
    have h3 : i * (s - o) + (s - o) = (i + 1) * (s - o) := by ring
    rw [h1, h2, h3]

/-- Claim C9 (witness): chunk size 3, overlap 1 on "abcde" gives the two
chunks "abc" and "cde"; the last character of the first equals the first
character of the second. -/
theorem claim9_sliding_window_witness :
    lastChars 1 (chunkAt 3 1 ("abcde".toList) 0)
      = (chunkAt 3 1 ("abcde".toList) 1).take 1 :=
  (claim9_sliding_window 3 1 ("abcde".toList) (by decide)).2.2 0 (by decide)

/-- Claim C10: the retrieval step factors through the question's embedding —
with a fixed store, metric and embedding model, two queries whose embeddings
agree retrieve the same ranked chunk list; in particular repeated calls with
the same question retrieve the same ranked chunks. -/
theorem claim10_retrieval_deterministic (emb : String → List Int)
    (sim : List Int → List Int → Int) (store : List (String × List Int))
    (k : Nat) (q1 q2 : String) (h : emb q1 = emb q2) :
    similaritySearch emb sim store q1 k
      = similaritySearch emb sim store q2 k := by
  unfold similaritySearch
  rw [h]

/-- Claim C10 (witness): two queries with equal embeddings retrieve the same
chunks. -/
theorem claim10_retrieval_deterministic_witness :
    similaritySearch (fun _ => []) (fun _ _ => 0) [("doc", [])] "a" 1
      = similaritySearch (fun _ => []) (fun _ _ => 0) [("doc", [])] "b" 1 :=
  claim10_retrieval_deterministic (fun _ => []) (fun _ _ => 0)
    [("doc", [])] 1 "a" "b" rfl

end ChatWithPdf
